import Mathlib

/-!
Shallow embedding of the dish details pipeline of `app/details/[id].tsx`:
local-first dish resolution, persisted favorites and history collections,
positional ingredient-slot extraction for remote dishes, and per-ingredient
nutrition/allergen enrichment with swallowed per-ingredient failures.

External collaborators (the local dataset lookup `getMealById`, the remote
calls `getMealDetails`, `getNutritionByIngredient`, `getAllergenFlags`, and
the `AsyncStorage` key/value backend) are modelled as explicit parameters:
lookups are `Option`-valued, fallible remote calls are `Except`-valued, and
the two storage slots are passed in and returned as `Option (List _)`
(`getItem` returning `null` is `none`, mirrored by the `?:` fallback to `[]`).
Remote calls additionally record a trace of the calls actually issued, so
that "is never invoked" claims are statements about the trace.
-/

/-- Per-ingredient nutrition record, `IngredientInfo.nutrition` in the source. -/
structure Nutrition where
  calories : Int
  protein : Int
  fat : Int
  sugars : Int
  sodium : Int
deriving DecidableEq, Repr

/-- An extracted ingredient/measure pair (source lines 153-157).  The measure
is optional because the source reads `dish[strMeasure-i]?.trim()`, which is
`undefined` when the slot is absent, and pushes it unchecked. -/
structure IngPair where
  name : String
  measure : Option String
deriving DecidableEq, Repr

/-- `IngredientInfo` of the source: an extracted pair enriched with
nutrition facts and allergen tags. -/
structure IngredientInfo where
  name : String
  measure : Option String
  nutrition : Nutrition
  allergens : List String
deriving DecidableEq, Repr

/-- A record of the local bundled dataset (`Meal` from `services/localData`),
restricted to the fields the details screen reads. -/
structure Meal where
  id : String
  name : String
  thumbnail : String
  instructions : String
deriving DecidableEq, Repr

/-- A remote dish record (`getMealDetails` payload): summary fields plus the
20 positional ingredient/measure slots, read as `strIngredient-i` /
`strMeasure-i` for i in 1..20; absent slots are `none`. -/
structure RemoteDish where
  idMeal : String
  strMeal : String
  strMealThumb : String
  strInstructions : String
  strIngredient : Nat → Option String
  strMeasure : Nat → Option String

/-- The minimal dish object the local path builds at source lines 62-67. -/
structure DishLite where
  idMeal : String
  strMeal : String
  strMealThumb : String
  strInstructions : String
deriving DecidableEq, Repr

/-- The value of the `dish` state: the minimal local projection or the full
remote record. -/
inductive DishVal
  | lite (d : DishLite)
  | full (d : RemoteDish)

/-- An entry of the persisted FAVORITES list (source lines 139-143). -/
structure FavEntry where
  idMeal : String
  strMeal : String
  strMealThumb : String
deriving DecidableEq, Repr

/-- An entry of the persisted HISTORY list (source lines 76-81). -/
structure HistEntry where
  idMeal : String
  strMeal : String
  strMealThumb : String
  viewedAt : Nat
deriving DecidableEq, Repr

/-- `MAX_HISTORY` of the source (line 39). -/
def MAX_HISTORY : Nat := 50

/-- The history-record step shared by the local path (lines 83-89) and the
remote path (lines 116-122): prepend the new entry, drop every old entry
with the same `idMeal`, and slice to the first `MAX_HISTORY` entries. -/
def recordView (histList : List HistEntry) (e : HistEntry) : List HistEntry :=
  let l := e :: histList.filter fun h => h.idMeal != e.idMeal
  if l.length > MAX_HISTORY then l.take MAX_HISTORY else l

/-- `toggleFavorite` (source lines 133-147), with the ambient pieces made
explicit: `isFav` is the in-memory `isFavorite` flag, `store` the persisted
FAVORITES slot, `dish` the current dish summary.  Returns the list written
back and the new flag passed to `setIsFavorite`. -/
def toggleFavorite (isFav : Bool) (store : Option (List FavEntry))
    (dish : DishLite) : List FavEntry × Bool :=
  let list := store.getD []
  let list2 :=
    if isFav then list.filter fun f => f.idMeal != dish.idMeal
    else list ++ [⟨dish.idMeal, dish.strMeal, dish.strMealThumb⟩]
  (list2, !isFav)

/-- JavaScript's `String.prototype.trim`: drop leading and trailing
whitespace (structurally recursive, unlike the library's `String.trim`,
so that concrete runs reduce inside the kernel). -/
def jsTrim (s : String) : String :=
  ⟨((s.data.dropWhile Char.isWhitespace).reverse.dropWhile Char.isWhitespace).reverse⟩

/-- One iteration of the slot-extraction loop body (source lines 154-157):
trim the slot's name and measure, and push the pair when the trimmed name is
truthy (present and nonempty). -/
def extractStep (d : RemoteDish) (list : List IngPair) (i : Nat) : List IngPair :=
  let name := (d.strIngredient (i + 1)).map jsTrim
  let measure := (d.strMeasure (i + 1)).map jsTrim
  match name with
  | some n => if n = "" then list else list ++ [⟨n, measure⟩]
  | none => list

/-- The slot-extraction loop (source lines 153-157): `for i in 1..20`. -/
def extractIngredients (d : RemoteDish) : List IngPair :=
  (List.range 20).foldl (extractStep d) []

/-- What slot `i` contributes to the extraction, as an `Option`:
`none` when the slot is absent or its trimmed name is empty. -/
def slotEntry (d : RemoteDish) (i : Nat) : Option IngPair :=
  match (d.strIngredient i).map jsTrim with
  | some n => if n = "" then none else some ⟨n, (d.strMeasure i).map jsTrim⟩
  | none => none

/-- Failure modes of the remote collaborator calls. -/
inductive FetchErr
  | network
  | notFound
  | unknownIngredient
deriving DecidableEq, Repr

/-- A network call issued during enrichment, for trace-based statements. -/
inductive Call
  | nutritionCall (name : String)
  | allergenCall (name : String)
deriving DecidableEq, Repr

/-- A fallible computation that also appends the remote calls it issues to a
trace: the effect shape of the `async` arrow at source lines 160-173.  An
`await` that throws stops the computation but keeps the calls already
issued, exactly as a rejected promise does. -/
def FetchM (α : Type) : Type := List Call → Except FetchErr α × List Call

def FetchM.pure {α : Type} (a : α) : FetchM α := fun log => (.ok a, log)

def FetchM.bind {α β : Type} (m : FetchM α) (f : α → FetchM β) : FetchM β :=
  fun log =>
    match m log with
    | (.ok a, log2) => f a log2
    | (.error e, log2) => (.error e, log2)

/-- The `try ... catch` of source lines 161-172: on any error the fallback
value is produced and the error is swallowed; issued calls remain issued. -/
def FetchM.tryCatch {α : Type} (m : FetchM α) (fallback : α) : FetchM α :=
  fun log =>
    match m log with
    | (.ok a, log2) => (.ok a, log2)
    | (.error _, log2) => (.ok fallback, log2)

/-- Issue one remote call: record it in the trace and return the oracle's
verdict for it. -/
def callFetch {α : Type} (c : Call) (result : Except FetchErr α) : FetchM α :=
  fun log => (result, log ++ [c])

/-- `getNutritionByIngredient` at the enrichment boundary: the oracle `nOr`
says how the network answers for each name. -/
def getNutritionByIngredient (nOr : String → Except FetchErr Nutrition)
    (name : String) : FetchM Nutrition :=
  callFetch (.nutritionCall name) (nOr name)

/-- `getAllergenFlags` at the enrichment boundary. -/
def getAllergenFlags (aOr : String → Except FetchErr (List String))
    (name : String) : FetchM (List String) :=
  callFetch (.allergenCall name) (aOr name)

/-- The zero nutrition record used by the catch branch (source line 169). -/
def zeroNutrition : Nutrition := ⟨0, 0, 0, 0, 0⟩

/-- The degraded entry built by the catch branch (source lines 166-171). -/
def degradedInfo (p : IngPair) : IngredientInfo :=
  ⟨p.name, p.measure, zeroNutrition, []⟩

/-- Enrichment of one extracted pair (source lines 160-173): await the
nutrition fetch, then await the allergen fetch, build the full entry; any
thrown error lands in the catch, which yields the degraded entry.  Returns
the produced entry together with the trace of calls issued for this pair. -/
def enrichOne (nOr : String → Except FetchErr Nutrition)
    (aOr : String → Except FetchErr (List String)) (p : IngPair) :
    IngredientInfo × List Call :=
  let m : FetchM IngredientInfo :=
    FetchM.tryCatch
      (FetchM.bind (getNutritionByIngredient nOr p.name) fun nut =>
        FetchM.bind (getAllergenFlags aOr p.name) fun aler =>
          FetchM.pure ⟨p.name, p.measure, nut, aler⟩)
      (degradedInfo p)
  match m [] with
  | (.ok info, log) => (info, log)
  | (.error _, log) => (degradedInfo p, log)

/-- The `Promise.all` gather (source lines 159-174): every extracted pair
yields exactly one entry, in extraction order. -/
def enrich (nOr : String → Except FetchErr Nutrition)
    (aOr : String → Except FetchErr (List String)) (list : List IngPair) :
    List IngredientInfo :=
  list.map fun p => (enrichOne nOr aOr p).1

/-- The set of remote calls issued across the whole enrichment fan-out
(concatenated per-pair traces; the claims below only use membership, which
is insensitive to the interleaving `Promise.all` actually produces). -/
def enrichCalls (nOr : String → Except FetchErr Nutrition)
    (aOr : String → Except FetchErr (List String)) (list : List IngPair) :
    List Call :=
  list.foldr (fun p acc => (enrichOne nOr aOr p).2 ++ acc) []

/-- Result of one run of the resolution effect (source lines 55-130):
the `dish` and `localMeal` states it sets, the `isFavorite` state when the
favorite check ran (`none` when it never ran), the contents of the two
storage slots afterwards, whether the catch logged an error, and the ids
passed to `getMealDetails`. -/
structure ResolveResult where
  dish : Option DishVal
  localMeal : Option Meal
  isFavorite : Option Bool
  favStoreAfter : Option (List FavEntry)
  histStoreAfter : Option (List HistEntry)
  errorLogged : Bool
  remoteCalls : List String

/-- The resolution effect (source lines 55-130): try the local dataset
first; on a hit, check favorites and record history, skipping the remote
fetch entirely; otherwise call `getMealDetails` and, on success only, check
favorites and record history; on failure log the error and stop. -/
def resolveDish (getMealById : String → Option Meal)
    (getMealDetails : String → Except FetchErr RemoteDish)
    (id : String) (now : Nat)
    (favStore : Option (List FavEntry)) (histStore : Option (List HistEntry)) :
    ResolveResult :=
  match getMealById id with
  | some m =>
      let favList := favStore.getD []
      let histList := histStore.getD []
      { dish := some (.lite ⟨m.id, m.name, m.thumbnail, m.instructions⟩)
        localMeal := some m
        isFavorite := some (favList.any fun f => f.idMeal == m.id)
        favStoreAfter := favStore
        histStoreAfter := some (recordView histList ⟨m.id, m.name, m.thumbnail, now⟩)
        errorLogged := false
        remoteCalls := [] }
  | none =>
      match getMealDetails id with
      | .ok data =>
          let favList := favStore.getD []
          let histList := histStore.getD []
          { dish := some (.full data)
            localMeal := none
            isFavorite := some (favList.any fun f => f.idMeal == data.idMeal)
            favStoreAfter := favStore
            histStoreAfter :=
              some (recordView histList ⟨data.idMeal, data.strMeal, data.strMealThumb, now⟩)
            errorLogged := false
            remoteCalls := [id] }
      | .error _ =>
          { dish := none
            localMeal := none
            isFavorite := none
            favStoreAfter := favStore
            histStoreAfter := histStore
            errorLogged := true
            remoteCalls := [id] }

/-! ### Concrete instances used by witnesses and counterexamples -/

/-- A sample local-dataset meal. -/
def mealEx : Meal := ⟨"L1", "Jollof Rice", "local-thumb", "Cook the rice."⟩

/-- A sample local dataset: it contains exactly the identifier `L1`. -/
def lookupEx : String → Option Meal :=
  fun s => if s = "L1" then some mealEx else none

/-- A remote catalog that has a record for every identifier, including `L1`:
used to show the remote source is not consulted even when it could answer. -/
def fetchAnyEx : String → Except FetchErr RemoteDish :=
  fun s => .ok ⟨s, "Remote Dish", "remote-thumb", "Remote steps.",
    fun _ => none, fun _ => none⟩

/-- A remote catalog that fails every fetch. -/
def fetchFailEx : String → Except FetchErr RemoteDish :=
  fun _ => .error .network

/-- A local dataset with no entries. -/
def lookupNoneEx : String → Option Meal := fun _ => none

/-- A remote dish whose only truthy ingredient slots are 1, 5 and 20;
slot 3 holds a blank (whitespace-only) name and every other slot is absent. -/
def exampleDish : RemoteDish :=
  ⟨"R9", "Example", "thumb", "steps",
    fun i =>
      if i = 1 then some " Chicken " else
      if i = 3 then some "   " else
      if i = 5 then some "Salt" else
      if i = 20 then some "Pepper" else none,
    fun i =>
      if i = 1 then some "1 whole" else
      if i = 5 then some " 1 tsp " else none⟩

/-- A nutrition oracle that fails exactly on ingredient `B`. -/
def nutOracleEx : String → Except FetchErr Nutrition :=
  fun n => if n = "B" then .error .network else .ok ⟨100, 5, 3, 2, 1⟩

/-- An allergen oracle that succeeds on every ingredient. -/
def alerOracleEx : String → Except FetchErr (List String) :=
  fun _ => .ok ["en:gluten"]

/-- The three-ingredient list of the spec's enrichment example. -/
def enrichListEx : List IngPair :=
  [⟨"A", some "1 cup"⟩, ⟨"B", some "2 tbsp"⟩, ⟨"C", none⟩]

/-- Sample history entries for the witnesses. -/
def histEntryA : HistEntry := ⟨"a", "Dish A", "ta", 5⟩

def histEntryB : HistEntry := ⟨"b", "Dish B", "tb", 9⟩

/-- The history produced by 51 sequential views of distinct identifiers
`0`..`50` (with increasing timestamps), starting from an empty history. -/
def histAfter51 : List HistEntry :=
  (List.range 51).foldl (fun h i => recordView h ⟨toString i, toString i, "", i⟩) []

/-! ### Helper lemmas -/

/-- `recordView` always equals the truncation of prepend-after-filter: when
no truncation is needed, `take MAX_HISTORY` is the identity. -/
theorem recordView_eq_take (hist : List HistEntry) (e : HistEntry) :
    recordView hist e =
      (e :: hist.filter fun h => h.idMeal != e.idMeal).take MAX_HISTORY := by
  unfold recordView
  by_cases h : (e :: hist.filter fun h => h.idMeal != e.idMeal).length > MAX_HISTORY
  · simp [h]
  · simp only [h, if_false]
    exact (List.take_of_length_le (Nat.le_of_not_lt h)).symm

/-- The history never exceeds `MAX_HISTORY` after a record. -/
theorem recordView_length_le (hist : List HistEntry) (e : HistEntry) :
    (recordView hist e).length ≤ MAX_HISTORY := by
  rw [recordView_eq_take]
  simp [List.length_take]

/-- Everything after the new head is an untouched subsequence of the prior
history. -/
theorem recordView_tail_sublist (hist : List HistEntry) (e : HistEntry) :
    (recordView hist e).tail.Sublist hist := by
  rw [recordView_eq_take]
  show ((e :: hist.filter fun h => h.idMeal != e.idMeal).take (49 + 1)).tail.Sublist hist
  rw [List.take_succ_cons, List.tail_cons]
  exact ((List.take_sublist _ _).trans (List.filter_sublist _))

/-- The flag written by `toggleFavorite` always agrees with membership in
the list it persists. -/
theorem toggleFavorite_snd_eq_mem (isFav : Bool) (store : Option (List FavEntry))
    (dish : DishLite) :
    (toggleFavorite isFav store dish).2 =
      (toggleFavorite isFav store dish).1.any fun f => f.idMeal == dish.idMeal := by
  cases isFav with
  | true =>
      simp [toggleFavorite, List.any_filter]
  | false =>
      simp [toggleFavorite, List.any_append]

/-- Case analysis of one enrichment task: the entry produced and the calls
issued, by the verdicts of the two oracles. -/
theorem enrichOne_eq (nOr : String → Except FetchErr Nutrition)
    (aOr : String → Except FetchErr (List String)) (p : IngPair) :
    enrichOne nOr aOr p =
      match nOr p.name, aOr p.name with
      | .ok n, .ok a =>
          (⟨p.name, p.measure, n, a⟩,
           [.nutritionCall p.name, .allergenCall p.name])
      | .ok _, .error _ =>
          (degradedInfo p, [.nutritionCall p.name, .allergenCall p.name])
      | .error _, _ => (degradedInfo p, [.nutritionCall p.name]) := by
  rcases h1 : nOr p.name with e | n <;> rcases h2 : aOr p.name with e2 | a <;>
    simp [enrichOne, FetchM.bind, FetchM.tryCatch, FetchM.pure,
      getNutritionByIngredient, getAllergenFlags, callFetch, h1, h2]

/-- The push-only loop accumulates exactly the per-slot contributions, in
iteration order. -/
theorem foldl_extractStep (d : RemoteDish) (l : List Nat) (acc : List IngPair) :
    l.foldl (extractStep d) acc = acc ++ l.filterMap fun i => slotEntry d (i + 1) := by
  induction l generalizing acc with
  | nil => simp
  | cons i l ih =>
      rw [List.foldl_cons, ih, List.filterMap_cons]
      unfold extractStep slotEntry
      rcases h1 : (d.strIngredient (i + 1)).map jsTrim with _ | n
      · simp [h1]
      · by_cases h2 : n = "" <;> simp [h1, h2]

/-- The extraction is the slot-indexed `filterMap` over slots 1..20 in
ascending order. -/
theorem extractIngredients_eq_filterMap (d : RemoteDish) :
    extractIngredients d = ((List.range 20).map (· + 1)).filterMap (slotEntry d) := by
  rw [extractIngredients, foldl_extractStep, List.filterMap_map]
  rfl

/-! ### Claims -/

set_option maxRecDepth 40000

/-- C1: for every identifier present in the local dataset the pipeline
produces the local dish, issues no `getMealDetails` call, and its whole
result is independent of the remote catalog. -/
theorem local_precedence (lookup : String → Option Meal)
    (fetch : String → Except FetchErr RemoteDish) (id : String) (now : Nat)
    (favStore : Option (List FavEntry)) (histStore : Option (List HistEntry))
    (m : Meal) (h : lookup id = some m) :
    (resolveDish lookup fetch id now favStore histStore).remoteCalls = [] ∧
    (resolveDish lookup fetch id now favStore histStore).dish =
      some (.lite ⟨m.id, m.name, m.thumbnail, m.instructions⟩) ∧
    ∀ fetch2, resolveDish lookup fetch id now favStore histStore =
      resolveDish lookup fetch2 id now favStore histStore := by
  unfold resolveDish
  rw [h]
  exact ⟨rfl, rfl, fun _ => rfl⟩

/-- Witness for C1: identifier `L1` is local, and even against a remote
catalog that knows every identifier no remote call is issued. -/
theorem local_precedence_witness :
    lookupEx "L1" = some mealEx ∧
    ((resolveDish lookupEx fetchAnyEx "L1" 7 none none).remoteCalls = [] ∧
     (resolveDish lookupEx fetchAnyEx "L1" 7 none none).dish =
       some (.lite ⟨mealEx.id, mealEx.name, mealEx.thumbnail, mealEx.instructions⟩) ∧
     ∀ fetch2, resolveDish lookupEx fetchAnyEx "L1" 7 none none =
       resolveDish lookupEx fetch2 "L1" 7 none none) :=
  ⟨rfl, local_precedence lookupEx fetchAnyEx "L1" 7 none none mealEx rfl⟩

/-- C2: enrichment yields exactly one entry per extracted pair, in order;
a pair for which either fetch fails gets the zero nutrition record and an
empty allergen list, every other pair carries its fetched values, and the
result is total (no error escapes). -/
theorem enrich_total_isolation (nOr : String → Except FetchErr Nutrition)
    (aOr : String → Except FetchErr (List String)) (list : List IngPair) :
    (enrich nOr aOr list).length = list.length ∧
    ∀ i : Nat, (enrich nOr aOr list)[i]? = (list[i]?).map fun p =>
      match nOr p.name, aOr p.name with
      | .ok n, .ok a => (⟨p.name, p.measure, n, a⟩ : IngredientInfo)
      | .ok _, .error _ => degradedInfo p
      | .error _, _ => degradedInfo p := by
  refine ⟨by simp [enrich], fun i => ?_⟩
  rw [enrich, List.getElem?_map]
  cases hp : list[i]? with
  | none => rfl
  | some p =>
      simp only [Option.map]
      rw [enrichOne_eq]
      rcases nOr p.name with e | n <;> rcases aOr p.name with e2 | a <;> rfl

/-- C3: recording a view puts the new entry (fresh timestamp) at the head,
drops every prior entry with the same identifier while keeping only prior
entries, bounds the length by 50, and 51 sequential views of distinct
identifiers leave the most recent 50, newest-first, the oldest evicted. -/
theorem recordView_dedup_promote (hist : List HistEntry) (e : HistEntry) :
    (recordView hist e).head? = some e ∧
    (recordView hist e).length ≤ MAX_HISTORY ∧
    (∀ h, h ∈ (recordView hist e).tail → h.idMeal ≠ e.idMeal ∧ h ∈ hist) ∧
    histAfter51.length = 50 ∧
    histAfter51.map (fun h => h.idMeal) =
      (List.range 50).map (fun i => toString (50 - i)) := by
  refine ⟨?_, recordView_length_le hist e, ?_, by rfl, by rfl⟩
  · rw [recordView_eq_take]; rfl
  · intro h hmem
    have htail : (recordView hist e).tail
        = (hist.filter fun x => x.idMeal != e.idMeal).take 49 := by
      rw [recordView_eq_take]; rfl
    rw [htail] at hmem
    have hf : h ∈ hist.filter fun x => x.idMeal != e.idMeal :=
      List.mem_of_mem_take hmem
    rw [List.mem_filter] at hf
    exact ⟨bne_iff_ne.mp hf.2, hf.1⟩

/-- Witness for C3 at a concrete history and entry. -/
theorem recordView_dedup_promote_witness :
    (recordView [histEntryA] histEntryB).head? = some histEntryB ∧
    (recordView [histEntryA] histEntryB).length ≤ MAX_HISTORY ∧
    (∀ h, h ∈ (recordView [histEntryA] histEntryB).tail →
      h.idMeal ≠ histEntryB.idMeal ∧ h ∈ [histEntryA]) ∧
    histAfter51.length = 50 ∧
    histAfter51.map (fun h => h.idMeal) =
      (List.range 50).map (fun i => toString (50 - i)) :=
  recordView_dedup_promote [histEntryA] histEntryB

/-- C9: the history invariant (pairwise-distinct identifiers, strictly
decreasing timestamps, length at most 50) is preserved by `recordView`
whenever the incoming history satisfies it and the new timestamp is fresher
than every recorded one. -/
theorem recordView_invariant (hist : List HistEntry) (e : HistEntry)
    (hids : hist.Pairwise fun a b => a.idMeal ≠ b.idMeal)
    (htimes : hist.Pairwise fun a b => b.viewedAt < a.viewedAt)
    (hfresh : ∀ h ∈ hist, h.viewedAt < e.viewedAt) :
    (recordView hist e).Pairwise (fun a b => a.idMeal ≠ b.idMeal) ∧
    (recordView hist e).Pairwise (fun a b => b.viewedAt < a.viewedAt) ∧
    (recordView hist e).length ≤ MAX_HISTORY := by
  refine ⟨?_, ?_, recordView_length_le hist e⟩ <;> rw [recordView_eq_take]
  · refine List.Pairwise.sublist (List.take_sublist _ _) ?_
    rw [List.pairwise_cons]
    refine ⟨fun b hb => ?_, hids.sublist (List.filter_sublist _)⟩
    rw [List.mem_filter] at hb
    exact (bne_iff_ne.mp hb.2).symm
  · refine List.Pairwise.sublist (List.take_sublist _ _) ?_
    rw [List.pairwise_cons]
    refine ⟨fun b hb => ?_, htimes.sublist (List.filter_sublist _)⟩
    rw [List.mem_filter] at hb
    exact hfresh b hb.1

/-- Witness for C9 at a concrete invariant-satisfying history. -/
theorem recordView_invariant_witness :
    (recordView [histEntryA] histEntryB).Pairwise
      (fun a b => a.idMeal ≠ b.idMeal) ∧
    (recordView [histEntryA] histEntryB).Pairwise
      (fun a b => b.viewedAt < a.viewedAt) ∧
    (recordView [histEntryA] histEntryB).length ≤ MAX_HISTORY :=
  recordView_invariant [histEntryA] histEntryB (by decide) (by decide) (by decide)

/-- C10: the recorded list is exactly the new entry followed by the prior
entries whose identifier differs, in their prior order, truncated to the
first `MAX_HISTORY`; in particular everything after the head is an
untouched subsequence of the prior history. -/
theorem recordView_frame (hist : List HistEntry) (e : HistEntry) :
    recordView hist e =
      (e :: hist.filter fun h => h.idMeal != e.idMeal).take MAX_HISTORY ∧
    (recordView hist e).tail.Sublist hist :=
  ⟨recordView_eq_take hist e, recordView_tail_sublist hist e⟩

/-- C4: slot extraction is the slot-indexed filter over slots 1..20 in
ascending order (skipping absent or blank-trimming names, no reordering,
no dedup), and the dish with truthy names only in slots 1, 5 and 20 yields
exactly those three entries in slot order. -/
theorem extract_slot_order :
    (∀ d : RemoteDish, extractIngredients d =
      ((List.range 20).map (· + 1)).filterMap (slotEntry d)) ∧
    extractIngredients exampleDish =
      [⟨"Chicken", some "1 whole"⟩, ⟨"Salt", some "1 tsp"⟩, ⟨"Pepper", none⟩] :=
  ⟨extractIngredients_eq_filterMap, by rfl⟩

/-- C5: when the identifier is not local and the remote fetch fails, the
run ends with no dish, the error logged, the favorite check never run, and
both persisted stores exactly as they were. -/
theorem remote_failure_no_side_effects (lookup : String → Option Meal)
    (fetch : String → Except FetchErr RemoteDish) (id : String) (now : Nat)
    (favStore : Option (List FavEntry)) (histStore : Option (List HistEntry))
    (err : FetchErr) (hlocal : lookup id = none) (hfetch : fetch id = .error err) :
    (resolveDish lookup fetch id now favStore histStore).dish = none ∧
    (resolveDish lookup fetch id now favStore histStore).histStoreAfter = histStore ∧
    (resolveDish lookup fetch id now favStore histStore).favStoreAfter = favStore ∧
    (resolveDish lookup fetch id now favStore histStore).isFavorite = none ∧
    (resolveDish lookup fetch id now favStore histStore).errorLogged = true := by
  simp [resolveDish, hlocal, hfetch]

/-- Witness for C5: an identifier unknown locally against a failing remote. -/
theorem remote_failure_no_side_effects_witness :
    (resolveDish lookupNoneEx fetchFailEx "Z" 3 (some []) (some [histEntryA])).dish = none ∧
    (resolveDish lookupNoneEx fetchFailEx "Z" 3 (some []) (some [histEntryA])).histStoreAfter
      = some [histEntryA] ∧
    (resolveDish lookupNoneEx fetchFailEx "Z" 3 (some []) (some [histEntryA])).favStoreAfter
      = some [] ∧
    (resolveDish lookupNoneEx fetchFailEx "Z" 3 (some []) (some [histEntryA])).isFavorite
      = none ∧
    (resolveDish lookupNoneEx fetchFailEx "Z" 3 (some []) (some [histEntryA])).errorLogged
      = true :=
  remote_failure_no_side_effects lookupNoneEx fetchFailEx "Z" 3 (some [])
    (some [histEntryA]) .network rfl rfl

/-- C6: when the in-memory flag agrees with the persisted list, toggling
twice restores the original membership state, and after one toggle the flag
agrees with membership in the list just persisted. -/
theorem toggleFavorite_double_restores (isFav : Bool) (list : List FavEntry)
    (dish : DishLite)
    (hcons : isFav = (list.any fun f => f.idMeal == dish.idMeal)) :
    ((toggleFavorite (toggleFavorite isFav (some list) dish).2
        (some (toggleFavorite isFav (some list) dish).1) dish).1.any
      fun f => f.idMeal == dish.idMeal) =
      (list.any fun f => f.idMeal == dish.idMeal) ∧
    (toggleFavorite isFav (some list) dish).2 =
      ((toggleFavorite isFav (some list) dish).1.any
        fun f => f.idMeal == dish.idMeal) := by
  refine ⟨?_, toggleFavorite_snd_eq_mem _ _ _⟩
  cases isFav with
  | true => simp [toggleFavorite, List.any_append, List.any_filter, ← hcons]
  | false => simp [toggleFavorite, List.filter_append, List.any_filter, ← hcons]

/-- A favorited entry and the matching dish, for the C6 witness. -/
def favEntryEx : FavEntry := ⟨"F1", "Waakye", "tf"⟩

def dishLiteEx : DishLite := ⟨"F1", "Waakye", "tf", "steps"⟩

/-- Witness for C6: a consistent favorited state, toggled twice. -/
theorem toggleFavorite_double_restores_witness :
    ((toggleFavorite (toggleFavorite true (some [favEntryEx]) dishLiteEx).2
        (some (toggleFavorite true (some [favEntryEx]) dishLiteEx).1) dishLiteEx).1.any
      fun f => f.idMeal == dishLiteEx.idMeal) =
      ([favEntryEx].any fun f => f.idMeal == dishLiteEx.idMeal) ∧
    (toggleFavorite true (some [favEntryEx]) dishLiteEx).2 =
      ((toggleFavorite true (some [favEntryEx]) dishLiteEx).1.any
        fun f => f.idMeal == dishLiteEx.idMeal) :=
  toggleFavorite_double_restores true [favEntryEx] dishLiteEx (by decide)

/-- C7: the flag `toggleFavorite` reports (and stores in `isFavorite`) is
true exactly when the dish is a member of the persisted list it wrote. -/
theorem toggleFavorite_returns_new_state (isFav : Bool)
    (store : Option (List FavEntry)) (dish : DishLite) :
    (toggleFavorite isFav store dish).2 =
      ((toggleFavorite isFav store dish).1.any fun f => f.idMeal == dish.idMeal) :=
  toggleFavorite_snd_eq_mem isFav store dish

/-- C8 (amended): per ingredient the nutrition call is always issued, while
the allergen call is issued exactly when the nutrition call succeeds — the
two are sequential, not concurrent — and the gather still resolves every
ingredient (one output entry per extracted pair). -/
theorem enrich_sequential_gather (nOr : String → Except FetchErr Nutrition)
    (aOr : String → Except FetchErr (List String)) (p : IngPair)
    (list : List IngPair) :
    Call.nutritionCall p.name ∈ (enrichOne nOr aOr p).2 ∧
    (Call.allergenCall p.name ∈ (enrichOne nOr aOr p).2 ↔
      ∃ n, nOr p.name = .ok n) ∧
    (enrich nOr aOr list).length = list.length := by
  refine ⟨?_, ?_, by simp [enrich]⟩ <;>
    rcases h : nOr p.name with e | n <;> rcases h2 : aOr p.name with e2 | a <;>
      simp [enrichOne_eq, h, h2]

/-- C8 counterexample: with ingredient `B` extracted and its nutrition
fetch failing, no allergen fetch for `B` is ever issued — the two fetches
of one ingredient are not issued independently of each other. -/
theorem enrich_concurrent_issue_counterexample :
    (⟨"B", some "2 tbsp"⟩ : IngPair) ∈ enrichListEx ∧
    Call.nutritionCall "B" ∈ enrichCalls nutOracleEx alerOracleEx enrichListEx ∧
    Call.allergenCall "B" ∉ enrichCalls nutOracleEx alerOracleEx enrichListEx := by
  decide
